import Mathlib

/-!
Shallow embedding of the moziboard backend state engine (Go, `main` package)
and verification of its specified behavior.

The embedding models the mutation merge engine (`updateTask`), task creation
(`createTask`), task listing (`getBoardTasks`), the activity ledger diff,
the embedding indexer (`generateEmbedding`, `updateEmbedding`) and the
realtime notifier (`broadcastUpdate`).  Persistence is modelled as an
explicit list of rows; outbound HTTP calls to the embedding provider are
modelled as explicit call-outcome values passed in; the pgvector SQL query
of the search endpoint is modelled as an oracle function, since only the
validation/error path of search is specified here.  Embedding vectors are
carried as `List Int`: no specified property inspects the numeric values
of the float components, only their presence and flow.
-/

namespace Moziboard

/-- HTTP-level error: a status code plus a plain-text message, as produced
by `c.Status(code).SendString(msg)`. -/
structure ApiError where
  status : Nat
  message : String
  deriving DecidableEq

/-- The Go `Task` struct: JSON payload and row shape for tasks.
`assignee_id` is a `*string` in Go, hence `Option String`; absent JSON
fields parse to the zero value (empty string, 0, or nil pointer). -/
structure Task where
  id : Int
  board_id : String
  title : String
  description : String
  list_id : String
  position : Int
  assignee_id : Option String
  updated_by : String
  deriving DecidableEq

/-- The Go `Board` struct. -/
structure Board where
  id : String
  title : String
  description : String
  deriving DecidableEq

/-- One row of the activities table, as written by `logActivity`
(`created_at` is filled by the database and not modelled). -/
structure ActivityEntry where
  task_id : Int
  user_id : String
  action : String
  details : String
  deriving DecidableEq

/-- The `SELECT id, board_id, title, description, list_id, position,
assignee_id FROM tasks` scan: the column list omits `updated_by` (the
tasks table has no such column), so the scanned struct carries the zero
value there. -/
def scanTask (t : Task) : Task :=
  { t with updated_by := "" }

/-- The row lookup `SELECT ... FROM tasks WHERE id=$1`. -/
def findTask (tasks : List Task) (id : Int) : Option Task :=
  tasks.find? (fun t => decide (t.id = id))

/-- The field-wise merge in `updateTask` (part_001 lines 529-550): each
string field keeps the old value when the payload's is empty, the
assignee pointer keeps the old value when nil; `position` (and `id`,
`updated_by`) are whatever the payload carried, `position` never being
checked against 0. -/
def mergeTask (oldTask payload : Task) : Task :=
  { payload with
    board_id := if payload.board_id = "" then oldTask.board_id else payload.board_id
    title := if payload.title = "" then oldTask.title else payload.title
    description := if payload.description = "" then oldTask.description else payload.description
    list_id := if payload.list_id = "" then oldTask.list_id else payload.list_id
    assignee_id :=
      match payload.assignee_id with
      | none => oldTask.assignee_id
      | some a => some a }

/-- The merge rule exactly as the specification words it: every field
non-empty-else-retain, except that `list_id` and `position` are applied
verbatim from the payload, including the zero value (empty string for
`list_id`, 0 for `position`).  Stated for comparison against `mergeTask`,
which is the source's rule. -/
def mergeTaskSpec (oldTask payload : Task) : Task :=
  { payload with
    board_id := if payload.board_id = "" then oldTask.board_id else payload.board_id
    title := if payload.title = "" then oldTask.title else payload.title
    description := if payload.description = "" then oldTask.description else payload.description
    assignee_id :=
      match payload.assignee_id with
      | none => oldTask.assignee_id
      | some a => some a }

/-- Go `*string` dereference with nil treated as "" (lines 568-574). -/
def assigneeStr : Option String → String
  | none => ""
  | some a => a

/-- The acting identity: `updated_by` from the payload, defaulting to
"mirza" when absent (lines 559-562). -/
def resolveUserID (payload : Task) : String :=
  if payload.updated_by = "" then "mirza" else payload.updated_by

/-- The activity rows synthesized by diffing the merged task against the
old row, in the source's emission order: moved, assigned/unassigned,
updated (lines 564-586). -/
def updateActivities (oldTask newTask : Task) (id : Int) (userID : String) :
    List ActivityEntry :=
  (if newTask.list_id ≠ oldTask.list_id then
    [⟨id, userID, "moved", "Moved to list " ++ newTask.list_id⟩]
  else []) ++
  (let newAssignee := assigneeStr newTask.assignee_id
   let oldAssignee := assigneeStr oldTask.assignee_id
   if newAssignee ≠ oldAssignee then
     if newAssignee ≠ "" then
       [⟨id, userID, "assigned", "Assigned to " ++ newAssignee⟩]
     else
       [⟨id, userID, "unassigned", "Removed assignee"⟩]
   else []) ++
  (if newTask.description ≠ oldTask.description then
    [⟨id, userID, "updated", "Updated task description"⟩]
  else [])

/-- The SQL `UPDATE tasks SET title=$1, description=$2, list_id=$3,
position=$4, assignee_id=$5, board_id=$6 WHERE id=$7` applied to one row:
the row keeps its own `id` (and has no `updated_by` column, modelled by
keeping that phantom field). -/
def applyRowUpdate (row newTask : Task) : Task :=
  { row with
    title := newTask.title
    description := newTask.description
    list_id := newTask.list_id
    position := newTask.position
    assignee_id := newTask.assignee_id
    board_id := newTask.board_id }

/-- Outcome of a successful `updateTask` call: the tasks table after the
write, the activity rows logged, and the JSON body echoed to the caller. -/
structure UpdateResult where
  tasks : List Task
  activities : List ActivityEntry
  response : Task
  deriving DecidableEq

/-- The `PUT /api/tasks/:id` handler `updateTask` (lines 513-591): look up
the old row (404 when absent), parse the payload, merge field-wise, write
the merged fields back to the row with the path id, diff for activities,
and respond with the merged payload struct (whose `id` is the payload's,
never overwritten from the path). -/
def updateTask (tasks : List Task) (pathId : Int) (payload : Task) :
    Except ApiError UpdateResult :=
  match findTask tasks pathId with
  | none => .error ⟨404, "Task not found"⟩
  | some row =>
    let oldTask := scanTask row
    let newTask := mergeTask oldTask payload
    let tasks' := tasks.map (fun t => if t.id = pathId then applyRowUpdate t newTask else t)
    let userID := resolveUserID newTask
    .ok ⟨tasks', updateActivities oldTask newTask pathId userID, newTask⟩

/-- Backend persistent state for the creation path: the boards table, the
tasks table, and the next value of the tasks serial id sequence. -/
structure BackendState where
  boards : List Board
  tasks : List Task
  nextTaskId : Int
  deriving DecidableEq

/-- The `POST /api/tasks` handler `createTask` (lines 477-511): when
`board_id` is absent, resolve it from `SELECT id FROM boards LIMIT 1`
(failing with status 500 "No board found" when the table is empty);
require a non-empty title (400); default `list_id` to "todo"; insert the
row with a fresh serial id and respond with the payload carrying that id. -/
def createTask (st : BackendState) (payload : Task) :
    Except ApiError (BackendState × Task) :=
  let resolved : Except ApiError Task :=
    if payload.board_id = "" then
      match st.boards.head? with
      | none => .error ⟨500, "No board found"⟩
      | some b => .ok { payload with board_id := b.id }
    else .ok payload
  match resolved with
  | .error e => .error e
  | .ok t0 =>
    if t0.title = "" then .error ⟨400, "Title is required"⟩
    else if t0.board_id = "" then .error ⟨400, "Board ID is required"⟩
    else
      let t1 := if t0.list_id = "" then { t0 with list_id := "todo" } else t0
      let resp := { t1 with id := st.nextTaskId }
      let row := { resp with updated_by := "" }
      .ok ({ st with
              tasks := st.tasks ++ [row]
              nextTaskId := st.nextTaskId + 1 },
           resp)

/-- The `GET /api/boards/:id/tasks` handler `getBoardTasks`
(lines 379-398): rows of the board, `ORDER BY position ASC`, scanned
through the task column list. -/
def getBoardTasks (tasks : List Task) (boardID : String) : List Task :=
  ((tasks.filter (fun t => decide (t.board_id = boardID))).mergeSort
    (fun a b => decide (a.position ≤ b.position))).map scanTask

/-- A live websocket subscriber: its identity and whether a write to it
currently succeeds. -/
structure Channel where
  id : Nat
  writeOk : Bool
  deriving DecidableEq

/-- The notifier `broadcastUpdate` (lines 84-94): write `msg` to every
client in the live set; a failed write closes and removes that client
only, delivery to the others proceeds.  Returns the surviving client set
and the list of (client, payload) deliveries. -/
def broadcastUpdate (msg : String) (clients : List Channel) :
    List Channel × List (Nat × String) :=
  match clients with
  | [] => ([], [])
  | c :: rest =>
    let r := broadcastUpdate msg rest
    if c.writeOk then (c :: r.1, (c.id, msg) :: r.2)
    else (r.1, r.2)

/-- The broadcast fired by every task create and update:
`go broadcastUpdate("UPDATE")` (lines 509 and 589). -/
def taskMutationBroadcast (clients : List Channel) :
    List Channel × List (Nat × String) :=
  broadcastUpdate "UPDATE" clients

/-- An embedding vector.  The Go code carries `[]float32`; no specified
property inspects the numeric values, so the components are abstracted
to an opaque scalar list. -/
abbrev Vec := List Int

/-- One HTTP response from the Gemini embedContent endpoint: status code,
raw body (used in error messages), and the result of JSON-decoding the
body into `GeminiEmbeddingResponse`. -/
structure EmbedHttpResp where
  status : Nat
  body : String
  decoded : Except String Vec

/-- Outcome of one outbound `http.Post` to the provider: a transport
error, or a response. -/
inductive EmbedCall where
  | failed (e : String)
  | ok (r : EmbedHttpResp)

/-- The provider chain `generateEmbedding` (lines 251-290): with a Gemini
key configured, call the primary model `text-embedding-004`; when it
answers non-200, retry once with `gemini-embedding-001` exactly when the
status was 404, and fail with a "gemini api error" message on any other
non-200 status; decode whichever response ended 200.  Without a key,
fail with "no AI provider configured".  The two possible outbound calls
are passed in as explicit outcomes. -/
def generateEmbedding (geminiKey : String) (primary fallback : EmbedCall) :
    Except String Vec :=
  if geminiKey ≠ "" then
    match primary with
    | .failed e => .error e
    | .ok r =>
      if r.status ≠ 200 then
        if r.status = 404 then
          match fallback with
          | .failed e => .error e
          | .ok r2 =>
            if r2.status ≠ 200 then
              .error ("gemini api error " ++ toString r2.status ++ ": " ++ r2.body)
            else r2.decoded
        else
          .error ("gemini api error " ++ toString r.status ++ ": " ++ r.body)
      else r.decoded
  else .error "no AI provider configured"

/-- The outcome the chain produces once it has decided to retry against
the fallback model (the inner 404 branch of `generateEmbedding`). -/
def fallbackResult (fallback : EmbedCall) : Except String Vec :=
  match fallback with
  | .failed e => .error e
  | .ok r2 =>
    if r2.status ≠ 200 then
      .error ("gemini api error " ++ toString r2.status ++ ": " ++ r2.body)
    else r2.decoded

/-- The background indexer `updateEmbedding` (lines 620-630): generate the
vector; on a generation error, log and leave the row alone; otherwise
attempt the row write, logging on failure.  Returns the row's embedding
column after the run and the diagnostics logged.  `dbWrite` is the
outcome of `UPDATE tasks SET embedding = ...` for the produced vector. -/
def updateEmbedding (embResult : Except String Vec) (stored : Option Vec)
    (dbWrite : Vec → Except String Unit) : Option Vec × List String :=
  match embResult with
  | .error e => (stored, ["Emb err: " ++ e])
  | .ok emb =>
    match dbWrite emb with
    | .error e => (stored, ["Db emb err: " ++ e])
    | .ok _ => (some emb, [])

/-- A mutation together with its detached indexing goroutine: the HTTP
outcome, the embedding column after the background run, and the
diagnostics it logged. -/
structure FullUpdateOutcome where
  api : Except ApiError UpdateResult
  embedding : Option Vec
  embLogs : List String

/-- `updateTask` with its `go updateEmbedding(...)` (line 588): the
goroutine only runs on the success path, and the HTTP outcome is fixed
before it runs. -/
def updateTaskWithIndexing (tasks : List Task) (pathId : Int) (payload : Task)
    (embResult : Except String Vec) (stored : Option Vec)
    (dbWrite : Vec → Except String Unit) : FullUpdateOutcome :=
  match updateTask tasks pathId payload with
  | .error e => ⟨.error e, stored, []⟩
  | .ok r =>
    let bg := updateEmbedding embResult stored dbWrite
    ⟨.ok r, bg.1, bg.2⟩

/-- The `GET /api/search` handler `searchTasks` (lines 634-662): an empty
`q` fails 400 "Query required"; an embedding-generation failure is
returned as status 500 with the provider error text; otherwise the
pgvector nearest-neighbour SQL runs (modelled by the `runQuery` oracle),
failing 500 on a persistence error. -/
def searchTasks (q : String) (geminiKey : String) (primary fallback : EmbedCall)
    (runQuery : Vec → Except String (List Task)) : Except ApiError (List Task) :=
  if q = "" then .error ⟨400, "Query required"⟩
  else
    match generateEmbedding geminiKey primary fallback with
    | .error e => .error ⟨500, e⟩
    | .ok emb =>
      match runQuery emb with
      | .error e => .error ⟨500, e⟩
      | .ok tasks => .ok tasks

/-- Concrete old row for the C1 counterexample. -/
def cex1Old : Task := ⟨1, "b1", "Old title", "old desc", "todo", 4, none, ""⟩

/-- Concrete payload for the C1 counterexample: empty `list_id`,
position 0. -/
def cex1Payload : Task := ⟨1, "", "", "", "", 0, none, ""⟩

/-- Outcome of updating `cex1Old` with `cex1Payload`. -/
def cex1Result : UpdateResult :=
  ⟨[⟨1, "b1", "Old title", "old desc", "todo", 0, none, ""⟩], [],
   ⟨1, "b1", "Old title", "old desc", "todo", 0, none, ""⟩⟩

/-- Concrete old row for the C2 counterexample: assignee "alice". -/
def cex2Old : Task := ⟨2, "b1", "T", "D", "todo", 1, some "alice", ""⟩

/-- Concrete payload for the C2 counterexample: reassigns to "bob". -/
def cex2Payload : Task := ⟨2, "", "", "", "", 1, some "bob", ""⟩

/-- Outcome of updating `cex2Old` with `cex2Payload`. -/
def cex2Result : UpdateResult :=
  ⟨[⟨2, "b1", "T", "D", "todo", 1, some "bob", ""⟩],
   [⟨2, "mirza", "assigned", "Assigned to bob"⟩],
   ⟨2, "b1", "T", "D", "todo", 1, some "bob", ""⟩⟩

/-- Concrete old row for the C10 witness: stored id 7. -/
def cex10Old : Task := ⟨7, "b1", "T", "D", "todo", 1, none, ""⟩

/-- Concrete payload for the C10 witness: its id field is the zero value
0, as when the JSON body omits id. -/
def cex10Payload : Task := ⟨0, "", "New title", "", "", 3, none, "kodinger"⟩

/-- Outcome of updating `cex10Old` with `cex10Payload`. -/
def cex10Result : UpdateResult :=
  ⟨[⟨7, "b1", "New title", "D", "todo", 3, none, ""⟩], [],
   ⟨0, "b1", "New title", "D", "todo", 3, none, "kodinger"⟩⟩

/-- The board id of the task a creation call responded with, when the
call succeeded. -/
def createdBoardId (res : Except ApiError (BackendState × Task)) : Option String :=
  match res with
  | .ok (_, t) => some t.board_id
  | .error _ => none

/-- Concrete backend state for the C9 witness: one board, no tasks. -/
def cex9State : BackendState :=
  ⟨[⟨"b1", "Main Project", "Default board"⟩], [], 1⟩

/-- Concrete creation payload for the C9 witness: board_id and list_id
omitted. -/
def cex9Payload : Task :=
  ⟨0, "", "Fix login bug", "OAuth token expiry causes logout", "", 2, none, ""⟩

/-- The task the C9 witness creation responds with. -/
def cex9Resp : Task :=
  ⟨1, "b1", "Fix login bug", "OAuth token expiry causes logout", "todo", 2, none, ""⟩

/-- The backend state after the C9 witness creation. -/
def cex9StateAfter : BackendState :=
  ⟨[⟨"b1", "Main Project", "Default board"⟩], [cex9Resp], 2⟩

/-- Concrete old row for the C3 witness. -/
def cex3Old : Task := ⟨3, "b1", "T", "D", "todo", 1, none, ""⟩

/-- Concrete payload for the C3 witness: moves lists, assigns, edits the
description. -/
def cex3Payload : Task := ⟨3, "", "", "New desc", "doing", 5, some "alice", "kodinger"⟩

/-- Outcome of the first application of `cex3Payload` to `cex3Old`. -/
def cex3Result : UpdateResult :=
  ⟨[⟨3, "b1", "T", "New desc", "doing", 5, some "alice", ""⟩],
   [⟨3, "kodinger", "moved", "Moved to list doing"⟩,
    ⟨3, "kodinger", "assigned", "Assigned to alice"⟩,
    ⟨3, "kodinger", "updated", "Updated task description"⟩],
   ⟨3, "b1", "T", "New desc", "doing", 5, some "alice", "kodinger"⟩⟩

/-- C8: the provider chain tries the primary provider's primary model
first; exactly on a 404 "model not found" response it retries once with
the fallback model (the result then being the fallback call's outcome);
any other non-200 status or transport failure aborts without consulting
the fallback; and with no credential configured it fails with the
no-provider error. -/
theorem generateEmbedding_chain (key e : String) (p f f1 f2 : EmbedCall)
    (r : EmbedHttpResp) (hkey : key ≠ "") :
    (generateEmbedding "" p f = .error "no AI provider configured") ∧
    (generateEmbedding key (.failed e) f = .error e) ∧
    (r.status = 200 → generateEmbedding key (.ok r) f = r.decoded) ∧
    (r.status ≠ 200 → r.status ≠ 404 →
      generateEmbedding key (.ok r) f =
        .error ("gemini api error " ++ toString r.status ++ ": " ++ r.body)) ∧
    (r.status ≠ 404 →
      generateEmbedding key (.ok r) f1 = generateEmbedding key (.ok r) f2) ∧
    (r.status = 404 → generateEmbedding key (.ok r) f = fallbackResult f) := by
  refine ⟨by simp [generateEmbedding], by simp [generateEmbedding, hkey], ?_, ?_, ?_, ?_⟩
  · intro h200
    simp [generateEmbedding, hkey, h200]
  · intro h200 h404
    simp [generateEmbedding, hkey, h200, h404]
  · intro h404
    by_cases h200 : r.status = 200 <;>
      simp [generateEmbedding, hkey, h200, h404]
  · intro h404
    have h200 : r.status ≠ 200 := by simp [h404]
    cases f with
    | failed e2 => simp [generateEmbedding, fallbackResult, hkey, h200, h404]
    | ok r2 => simp [generateEmbedding, fallbackResult, hkey, h200, h404]

/-- C8 witness: with a key configured, a 404 from the primary model is
retried against the fallback model and that second response's decoded
vector is returned. -/
theorem generateEmbedding_chain_witness :
    generateEmbedding "k" (.ok ⟨404, "not found", .error "undecoded"⟩)
      (.ok ⟨200, "", .ok [3, 1]⟩) = .ok [3, 1] := by
  have h := (generateEmbedding_chain "k" "boom" (.failed "x")
      (.ok ⟨200, "", .ok [3, 1]⟩) (.failed "y") (.failed "z")
      ⟨404, "not found", .error "undecoded"⟩ (by decide)).2.2.2.2.2 rfl
  rw [h]
  rfl

/-- C7: when an embedding-indexing run fails at any step (generation
failure, or a failed row write), the row's stored embedding is left
unchanged, a diagnostic is logged, and the HTTP outcome of the mutation
that triggered the run is exactly what it would have been with any other
indexing outcome. -/
theorem updateEmbedding_failure_isolated (tasks : List Task) (pathId : Int)
    (payload : Task) (embResult : Except String Vec) (stored : Option Vec)
    (dbWrite : Vec → Except String Unit)
    (hFail : ∀ v, embResult = .ok v → dbWrite v ≠ .ok ()) :
    (updateEmbedding embResult stored dbWrite).1 = stored ∧
    (updateEmbedding embResult stored dbWrite).2 ≠ [] ∧
    (updateTaskWithIndexing tasks pathId payload embResult stored dbWrite).api
      = updateTask tasks pathId payload := by
  have hbg : (updateEmbedding embResult stored dbWrite).1 = stored ∧
      (updateEmbedding embResult stored dbWrite).2 ≠ [] := by
    cases embResult with
    | error e => simp [updateEmbedding]
    | ok v =>
      cases hw : dbWrite v with
      | error e => simp [updateEmbedding, hw]
      | ok u =>
        cases u
        exact absurd hw (hFail v rfl)
  refine ⟨hbg.1, hbg.2, ?_⟩
  unfold updateTaskWithIndexing
  cases updateTask tasks pathId payload <;> rfl

/-- C7 witness: a failed generation leaves an existing stored vector in
place, logs, and the mutation outcome matches the plain update. -/
theorem updateEmbedding_failure_isolated_witness :
    (updateEmbedding (.error "boom") (some [1]) (fun _ => .ok ())).1 = some [1] ∧
    (updateEmbedding (.error "boom") (some [1]) (fun _ => .ok ())).2 ≠ [] ∧
    (updateTaskWithIndexing [] 1 ⟨0, "", "", "", "", 0, none, ""⟩
        (.error "boom") (some [1]) (fun _ => .ok ())).api
      = updateTask [] 1 ⟨0, "", "", "", "", 0, none, ""⟩ :=
  updateEmbedding_failure_isolated [] 1 ⟨0, "", "", "", "", 0, none, ""⟩
    (.error "boom") (some [1]) (fun _ => .ok ()) (fun _ h => nomatch h)

/-- C5 counterexample: the token broadcast on a task mutation is the
literal "UPDATE", not the literal "state changed" the claim names. -/
theorem broadcast_token_counterexample :
    (taskMutationBroadcast [⟨1, true⟩]).2 = [(1, "UPDATE")] ∧
    "UPDATE" ≠ "state changed" := by
  exact ⟨rfl, by decide⟩

/-- C5 amended: one task create/update broadcast delivers exactly one
"UPDATE" token to each currently open channel and nothing else, leaving
the channel set intact. -/
theorem taskMutationBroadcast_fanout : ∀ clients : List Channel,
    (∀ c ∈ clients, c.writeOk = true) →
    taskMutationBroadcast clients =
      (clients, clients.map (fun c => (c.id, "UPDATE")))
  | [], _ => rfl
  | c :: rest, h => by
    have hc : c.writeOk = true := h c (List.mem_cons_self c rest)
    have hr := taskMutationBroadcast_fanout rest
      (fun x hx => h x (List.mem_cons_of_mem c hx))
    simp only [taskMutationBroadcast] at hr ⊢
    simp [broadcastUpdate, hc, hr]

/-- C5 amended witness: two live channels each receive exactly one
"UPDATE" token. -/
theorem taskMutationBroadcast_fanout_witness :
    taskMutationBroadcast [⟨1, true⟩, ⟨2, true⟩] =
      ([⟨1, true⟩, ⟨2, true⟩], [(1, "UPDATE"), (2, "UPDATE")]) :=
  taskMutationBroadcast_fanout [⟨1, true⟩, ⟨2, true⟩] (by decide)

/-- C6 counterexample: with no embedding provider configured, semantic
search fails with status 500 and the provider message — the same status
the persistence-failure path uses — not a distinct Unavailable class. -/
theorem searchTasks_unavailable_counterexample :
    searchTasks "auth token" "" (.failed "t") (.failed "t") (fun _ => .ok [])
      = .error ⟨500, "no AI provider configured"⟩ ∧
    searchTasks "auth token" "k" (.ok ⟨200, "", .ok [1]⟩) (.failed "t")
      (fun _ => .error "db down") = .error ⟨500, "db down"⟩ :=
  ⟨rfl, rfl⟩

/-- C6 amended: an empty query fails 400 "Query required", and with no
provider configured a non-empty query fails with status 500 (the generic
InternalError status) carrying "no AI provider configured". -/
theorem searchTasks_errors (q key : String) (primary fallback : EmbedCall)
    (runQuery : Vec → Except String (List Task)) :
    (q = "" → searchTasks q key primary fallback runQuery =
      .error ⟨400, "Query required"⟩) ∧
    (q ≠ "" → key = "" → searchTasks q key primary fallback runQuery =
      .error ⟨500, "no AI provider configured"⟩) := by
  constructor
  · intro hq
    simp [searchTasks, hq]
  · intro hq hkey
    simp [searchTasks, generateEmbedding, hq, hkey]

/-- C6 amended witness: both error paths at concrete inputs. -/
theorem searchTasks_errors_witness :
    searchTasks "" "k" (.failed "t") (.failed "t") (fun _ => .ok []) =
      .error ⟨400, "Query required"⟩ ∧
    searchTasks "x" "" (.failed "t") (.failed "t") (fun _ => .ok []) =
      .error ⟨500, "no AI provider configured"⟩ :=
  ⟨(searchTasks_errors "" "k" (.failed "t") (.failed "t") (fun _ => .ok [])).1 rfl,
   (searchTasks_errors "x" "" (.failed "t") (.failed "t") (fun _ => .ok [])).2
     (by decide) rfl⟩

/-- Characterization of a successful `updateTask` call in terms of the
found row: the table is rewritten row-wise, the activity diff is taken
against the scanned old row, and the response is the merged payload. -/
theorem updateTask_ok (tasks : List Task) (pathId : Int) (p row : Task)
    (hrow : findTask tasks pathId = some row) :
    updateTask tasks pathId p = .ok
      ⟨tasks.map (fun t => if t.id = pathId then
          applyRowUpdate t (mergeTask (scanTask row) p) else t),
       updateActivities (scanTask row) (mergeTask (scanTask row) p) pathId
         (resolveUserID (mergeTask (scanTask row) p)),
       mergeTask (scanTask row) p⟩ := by
  simp [updateTask, hrow]

/-- C1 counterexample: a payload with empty `list_id` does not move the
task to the empty list — the old `list_id` is retained, so `list_id` is
not applied verbatim for its zero value; the spec-worded merge disagrees
with the source merge here (position 0 is applied verbatim, as both
agree). -/
theorem merge_listid_verbatim_counterexample :
    cex1Payload.list_id = "" ∧
    updateTask [cex1Old] 1 cex1Payload = .ok cex1Result ∧
    cex1Result.response.list_id = "todo" ∧
    (mergeTaskSpec cex1Old cex1Payload).list_id = "" ∧
    cex1Result.response.position = 0 ∧
    cex1Result.response ≠ mergeTaskSpec cex1Old cex1Payload :=
  ⟨by decide, rfl, by decide, by decide, by decide, by decide⟩

/-- C1 amended: for every task update, the response is the per-field
merge in which board_id, title, description and list_id each take the
payload's value when non-empty and otherwise retain the old row's value,
the assignee pointer is taken whenever non-nil, and position (and id)
are taken verbatim from the payload, including the zero value. -/
theorem updateTask_merge_semantics (tasks : List Task) (pathId : Int)
    (p row : Task) (r : UpdateResult)
    (hrow : findTask tasks pathId = some row)
    (h : updateTask tasks pathId p = .ok r) :
    r.response.board_id = (if p.board_id = "" then row.board_id else p.board_id) ∧
    r.response.title = (if p.title = "" then row.title else p.title) ∧
    r.response.description =
      (if p.description = "" then row.description else p.description) ∧
    r.response.list_id = (if p.list_id = "" then row.list_id else p.list_id) ∧
    r.response.position = p.position ∧
    r.response.id = p.id ∧
    r.response.assignee_id =
      (match p.assignee_id with | none => row.assignee_id | some a => some a) := by
  have hok := (h.symm.trans (updateTask_ok tasks pathId p row hrow))
  injection hok with hok
  subst hok
  refine ⟨?_, ?_, ?_, ?_, rfl, rfl, ?_⟩ <;>
    simp [mergeTask, scanTask]

/-- C1 amended witness: at a concrete update, every field relation of the
amended merge rule holds. -/
theorem updateTask_merge_semantics_witness :
    cex1Result.response.board_id =
      (if cex1Payload.board_id = "" then cex1Old.board_id else cex1Payload.board_id) ∧
    cex1Result.response.title =
      (if cex1Payload.title = "" then cex1Old.title else cex1Payload.title) ∧
    cex1Result.response.description =
      (if cex1Payload.description = "" then cex1Old.description else cex1Payload.description) ∧
    cex1Result.response.list_id =
      (if cex1Payload.list_id = "" then cex1Old.list_id else cex1Payload.list_id) ∧
    cex1Result.response.position = cex1Payload.position ∧
    cex1Result.response.id = cex1Payload.id ∧
    cex1Result.response.assignee_id =
      (match cex1Payload.assignee_id with
       | none => cex1Old.assignee_id
       | some a => some a) :=
  updateTask_merge_semantics [cex1Old] 1 cex1Payload cex1Old cex1Result rfl rfl

/-- C2 counterexample: when the old and new assignees are both non-empty
but different (alice to bob), the update emits an "assigned" activity,
not no assignee activity as claimed. -/
theorem assignee_reassignment_counterexample :
    assigneeStr cex2Old.assignee_id = "alice" ∧
    assigneeStr cex2Payload.assignee_id = "bob" ∧
    updateTask [cex2Old] 2 cex2Payload = .ok cex2Result ∧
    cex2Result.activities = [⟨2, "mirza", "assigned", "Assigned to bob"⟩] :=
  ⟨by decide, by decide, rfl, by decide⟩

/-- C2 amended: an "assigned" activity is emitted exactly when the merged
assignee is non-empty and differs from the old one (this includes a
non-empty to non-empty reassignment), and an "unassigned" activity
exactly when a non-empty assignee becomes empty; a nil payload assignee
keeps the old one and emits nothing. -/
theorem updateTask_assignee_activities (tasks : List Task) (pathId : Int)
    (p row : Task) (r : UpdateResult)
    (hrow : findTask tasks pathId = some row)
    (h : updateTask tasks pathId p = .ok r) :
    (r.activities.countP (fun a => decide (a.action = "assigned"))) =
      (if assigneeStr (mergeTask (scanTask row) p).assignee_id ≠
            assigneeStr row.assignee_id ∧
          assigneeStr (mergeTask (scanTask row) p).assignee_id ≠ ""
       then 1 else 0) ∧
    (r.activities.countP (fun a => decide (a.action = "unassigned"))) =
      (if assigneeStr (mergeTask (scanTask row) p).assignee_id ≠
            assigneeStr row.assignee_id ∧
          assigneeStr (mergeTask (scanTask row) p).assignee_id = ""
       then 1 else 0) := by
  have hok := (h.symm.trans (updateTask_ok tasks pathId p row hrow))
  injection hok with hok
  subst hok
  have hscan : (scanTask row).assignee_id = row.assignee_id := rfl
  unfold updateActivities
  by_cases h1 : (mergeTask (scanTask row) p).list_id = (scanTask row).list_id <;>
  by_cases h2 : assigneeStr (mergeTask (scanTask row) p).assignee_id =
      assigneeStr row.assignee_id <;>
  by_cases h3 : assigneeStr (mergeTask (scanTask row) p).assignee_id = "" <;>
  by_cases h4 : (mergeTask (scanTask row) p).description =
      (scanTask row).description <;>
  simp only [h3] at h2 <;>
  simp [h1, h2, h3, h4, hscan, List.countP_append, List.countP_cons]

/-- C2 amended witness: at the concrete reassignment, exactly one
"assigned" and zero "unassigned" activities are emitted. -/
theorem updateTask_assignee_activities_witness :
    (cex2Result.activities.countP (fun a => decide (a.action = "assigned"))) =
      (if assigneeStr (mergeTask (scanTask cex2Old) cex2Payload).assignee_id ≠
            assigneeStr cex2Old.assignee_id ∧
          assigneeStr (mergeTask (scanTask cex2Old) cex2Payload).assignee_id ≠ ""
       then 1 else 0) ∧
    (cex2Result.activities.countP (fun a => decide (a.action = "unassigned"))) =
      (if assigneeStr (mergeTask (scanTask cex2Old) cex2Payload).assignee_id ≠
            assigneeStr cex2Old.assignee_id ∧
          assigneeStr (mergeTask (scanTask cex2Old) cex2Payload).assignee_id = ""
       then 1 else 0) :=
  updateTask_assignee_activities [cex2Old] 2 cex2Payload cex2Old cex2Result rfl rfl

/-- C10: the update response's id comes from the payload, not from the
URL path, while the row the path id identifies is the one updated (its
stored id stays the path id). -/
theorem updateTask_response_id (tasks : List Task) (pathId : Int)
    (p row : Task) (r : UpdateResult)
    (hrow : findTask tasks pathId = some row)
    (h : updateTask tasks pathId p = .ok r) :
    r.response.id = p.id ∧
    row.id = pathId ∧
    (applyRowUpdate row (mergeTask (scanTask row) p)).id = pathId ∧
    applyRowUpdate row (mergeTask (scanTask row) p) ∈ r.tasks := by
  have hok := (h.symm.trans (updateTask_ok tasks pathId p row hrow))
  injection hok with hok
  subst hok
  unfold findTask at hrow
  have hid : row.id = pathId := by
    have := List.find?_some hrow
    simpa using this
  have hmem : row ∈ tasks := List.mem_of_find?_eq_some hrow
  refine ⟨rfl, hid, hid, ?_⟩
  have := List.mem_map_of_mem
    (fun t => if t.id = pathId then
      applyRowUpdate t (mergeTask (scanTask row) p) else t) hmem
  simpa [hid] using this

/-- C10 witness: path id 7 updates the stored row with id 7, while the
response carries the payload's id 0. -/
theorem updateTask_response_id_witness :
    cex10Result.response.id = cex10Payload.id ∧
    cex10Old.id = 7 ∧
    (applyRowUpdate cex10Old (mergeTask (scanTask cex10Old) cex10Payload)).id = 7 ∧
    applyRowUpdate cex10Old (mergeTask (scanTask cex10Old) cex10Payload)
      ∈ cex10Result.tasks :=
  updateTask_response_id [cex10Old] 7 cex10Payload cex10Old cex10Result rfl rfl

/-- C4 counterexample: with zero boards and no board_id supplied, task
creation fails with status 500 "No board found", not with BadRequest
(status 400). -/
theorem createTask_noboard_counterexample :
    createTask ⟨[], [], 1⟩ ⟨0, "", "A title", "", "", 0, none, ""⟩ =
      .error ⟨500, "No board found"⟩ ∧ (500 : Nat) ≠ 400 :=
  ⟨rfl, by decide⟩

/-- C4 amended: creation rejects an empty title with 400 "Title is
required" (once a board is resolved), resolves an omitted board_id to
the first existing board, and with zero boards and an omitted board_id
fails with status 500 "No board found". -/
theorem createTask_validation (st : BackendState) (p : Task) (b : Board) :
    (p.board_id = "" → st.boards = [] →
      createTask st p = .error ⟨500, "No board found"⟩) ∧
    (p.title = "" → p.board_id ≠ "" →
      createTask st p = .error ⟨400, "Title is required"⟩) ∧
    (p.title = "" → p.board_id = "" → st.boards.head? = some b →
      createTask st p = .error ⟨400, "Title is required"⟩) ∧
    (p.title ≠ "" → p.board_id = "" → st.boards.head? = some b → b.id ≠ "" →
      createdBoardId (createTask st p) = some b.id) := by
  refine ⟨?_, ?_, ?_, ?_⟩
  · intro hb hboards
    simp [createTask, hb, hboards]
  · intro ht hb
    simp [createTask, hb, ht]
  · intro ht hb hhead
    simp [createTask, hb, hhead, ht]
  · intro ht hb hhead hbid
    by_cases hl : p.list_id = "" <;>
      simp [createTask, createdBoardId, hb, hhead, ht, hbid, hl]

/-- C4 amended witness: each of the four creation behaviors at a
concrete input. -/
theorem createTask_validation_witness :
    (createTask ⟨[], [], 1⟩ ⟨0, "", "A title", "", "", 0, none, ""⟩ =
      .error ⟨500, "No board found"⟩) ∧
    (createTask ⟨[⟨"b1", "Main", ""⟩], [], 1⟩ ⟨0, "b1", "", "", "", 0, none, ""⟩ =
      .error ⟨400, "Title is required"⟩) ∧
    (createTask ⟨[⟨"b1", "Main", ""⟩], [], 1⟩ ⟨0, "", "", "", "", 0, none, ""⟩ =
      .error ⟨400, "Title is required"⟩) ∧
    (createdBoardId (createTask ⟨[⟨"b1", "Main", ""⟩], [], 1⟩
      ⟨0, "", "A title", "", "", 0, none, ""⟩) = some "b1") :=
  ⟨(createTask_validation ⟨[], [], 1⟩ ⟨0, "", "A title", "", "", 0, none, ""⟩
      ⟨"x", "", ""⟩).1 rfl rfl,
   (createTask_validation ⟨[⟨"b1", "Main", ""⟩], [], 1⟩
      ⟨0, "b1", "", "", "", 0, none, ""⟩ ⟨"b1", "Main", ""⟩).2.1 rfl (by decide),
   (createTask_validation ⟨[⟨"b1", "Main", ""⟩], [], 1⟩
      ⟨0, "", "", "", "", 0, none, ""⟩ ⟨"b1", "Main", ""⟩).2.2.1 rfl rfl rfl,
   (createTask_validation ⟨[⟨"b1", "Main", ""⟩], [], 1⟩
      ⟨0, "", "A title", "", "", 0, none, ""⟩ ⟨"b1", "Main", ""⟩).2.2.2
      (by decide) rfl rfl (by decide)⟩

/-- A stored row is listed by `getBoardTasks` for its own board. -/
theorem scan_mem_getBoardTasks (tasks : List Task) (t : Task)
    (hmem : scanTask t ∈ tasks) : scanTask t ∈ getBoardTasks tasks t.board_id := by
  unfold getBoardTasks
  have hmm : scanTask t ∈ tasks.filter (fun x => decide (x.board_id = t.board_id)) := by
    simp only [List.mem_filter, hmem, true_and]
    simp [scanTask]
  have hms : scanTask t ∈
      (tasks.filter (fun x => decide (x.board_id = t.board_id))).mergeSort
        (fun a b => decide (a.position ≤ b.position)) :=
    List.mem_mergeSort.mpr hmm
  have hmp := List.mem_map_of_mem scanTask hms
  simpa [scanTask] using hmp

/-- C9: a successfully created task carries the supplied position, the
supplied-or-defaulted list_id ("todo" when absent) and board_id (the
first existing board when absent), and its stored row is subsequently
listed by `getBoardTasks` on that board. -/
theorem createTask_then_listed (st : BackendState) (p : Task)
    (st' : BackendState) (t : Task) (h : createTask st p = .ok (st', t)) :
    t.position = p.position ∧
    t.list_id = (if p.list_id = "" then "todo" else p.list_id) ∧
    (p.board_id ≠ "" → t.board_id = p.board_id) ∧
    (p.board_id = "" → st.boards.head?.map Board.id = some t.board_id) ∧
    scanTask t ∈ getBoardTasks st'.tasks t.board_id := by
  by_cases hb : p.board_id = ""
  · cases hhead : st.boards.head? with
    | none => simp [createTask, hb, hhead] at h
    | some b =>
      by_cases ht : p.title = ""
      · simp [createTask, hb, hhead, ht] at h
      · by_cases hbid : b.id = ""
        · simp [createTask, hb, hhead, ht, hbid] at h
        · by_cases hl : p.list_id = "" <;>
            simp only [createTask, hb, hhead, ht, hbid, hl, if_true, if_false,
              if_pos, if_neg, Except.ok.injEq, Prod.mk.injEq, ite_true,
              ite_false, reduceIte, not_false_eq_true] at h <;>
          · obtain ⟨h1, h2⟩ := h
            subst h1
            subst h2
            refine ⟨by simp, by simp [hl], fun hx => absurd hb hx, fun _ => ?_, ?_⟩
            · simp [hhead]
            · exact scan_mem_getBoardTasks _ _ (by simp [scanTask])
  · by_cases ht : p.title = ""
    · simp [createTask, hb, ht] at h
    · by_cases hl : p.list_id = "" <;>
        simp only [createTask, hb, ht, hl, if_true, if_false, if_pos, if_neg,
          Except.ok.injEq, Prod.mk.injEq, ite_true, ite_false, reduceIte,
          not_false_eq_true] at h <;>
      · obtain ⟨h1, h2⟩ := h
        subst h1
        subst h2
        refine ⟨by simp, by simp [hl], fun _ => by simp, fun hx => absurd hx hb, ?_⟩
        exact scan_mem_getBoardTasks _ _ (by simp [scanTask])

/-- C9 witness: a concrete creation with omitted board_id and list_id is
listed on the default board with list "todo" and its position. -/
theorem createTask_then_listed_witness :
    cex9Resp.position = cex9Payload.position ∧
    cex9Resp.list_id = (if cex9Payload.list_id = "" then "todo" else cex9Payload.list_id) ∧
    (cex9Payload.board_id ≠ "" → cex9Resp.board_id = cex9Payload.board_id) ∧
    (cex9Payload.board_id = "" →
      cex9State.boards.head?.map Board.id = some cex9Resp.board_id) ∧
    scanTask cex9Resp ∈ getBoardTasks cex9StateAfter.tasks cex9Resp.board_id :=
  createTask_then_listed cex9State cex9Payload cex9StateAfter cex9Resp rfl

/-- After the row-wise SQL update, looking up the path id finds the
updated row. -/
theorem findTask_map_update : ∀ (l : List Task) (n : Int) (m r : Task),
    findTask l n = some r →
    findTask (l.map fun t => if t.id = n then applyRowUpdate t m else t) n =
      some (applyRowUpdate r m)
  | [], _, _, _, h => by simp [findTask] at h
  | a :: l, n, m, r, h => by
    by_cases ha : a.id = n
    · have hra : a = r := by
        simpa [findTask, List.find?, ha] using h
      subst hra
      simp [findTask, List.find?, ha, applyRowUpdate]
    · have htail : findTask l n = some r := by
        simpa [findTask, List.find?, ha] using h
      have ih := findTask_map_update l n m r htail
      simpa [findTask, List.find?, ha] using ih

/-- Merging a payload over any state that already agrees with the merged
result on every retain-or-override field reproduces that result. -/
theorem mergeTask_stable (o p x : Task)
    (hb : x.board_id = (mergeTask o p).board_id)
    (ht : x.title = (mergeTask o p).title)
    (hd : x.description = (mergeTask o p).description)
    (hl : x.list_id = (mergeTask o p).list_id)
    (ha : x.assignee_id = (mergeTask o p).assignee_id) :
    mergeTask x p = mergeTask o p := by
  simp only [mergeTask] at hb ht hd hl ha ⊢
  rw [Task.mk.injEq]
  refine ⟨rfl, ?_, ?_, ?_, ?_, rfl, ?_, rfl⟩
  · by_cases hc : p.board_id = "" <;> simp_all
  · by_cases hc : p.title = "" <;> simp_all
  · by_cases hc : p.description = "" <;> simp_all
  · by_cases hc : p.list_id = "" <;> simp_all
  · cases hpa : p.assignee_id <;> simp_all

/-- Re-applying the same row-wise SQL update is a no-op. -/
theorem map_update_idem : ∀ (l : List Task) (n : Int) (m : Task),
    ((l.map fun t => if t.id = n then applyRowUpdate t m else t).map
      fun t => if t.id = n then applyRowUpdate t m else t) =
      l.map fun t => if t.id = n then applyRowUpdate t m else t
  | [], _, _ => rfl
  | a :: l, n, m => by
    have ih := map_update_idem l n m
    by_cases ha : a.id = n
    · simp only [List.map_cons, ih]
      simp [ha, applyRowUpdate]
    · simp only [List.map_cons, ih]
      simp [ha]

/-- A diff with no observed field transition emits no activity rows. -/
theorem updateActivities_nil (o n : Task) (id : Int) (u : String)
    (hl : n.list_id = o.list_id)
    (ha : assigneeStr n.assignee_id = assigneeStr o.assignee_id)
    (hd : n.description = o.description) :
    updateActivities o n id u = [] := by
  simp [updateActivities, hl, ha, hd]

/-- C3: applying the same partial update payload twice leaves the table
exactly as after the first application, returns the same response, and
the second application emits no activity rows. -/
theorem updateTask_idempotent (tasks : List Task) (pathId : Int) (p : Task)
    (r : UpdateResult) (h : updateTask tasks pathId p = .ok r) :
    updateTask r.tasks pathId p = .ok ⟨r.tasks, [], r.response⟩ := by
  cases hrow : findTask tasks pathId with
  | none => simp [updateTask, hrow] at h
  | some row =>
    have hok := h.symm.trans (updateTask_ok tasks pathId p row hrow)
    injection hok with hok
    subst hok
    have hfind2 := findTask_map_update tasks pathId (mergeTask (scanTask row) p)
      row hrow
    have h2 := updateTask_ok
      (tasks.map fun t => if t.id = pathId then
        applyRowUpdate t (mergeTask (scanTask row) p) else t)
      pathId p (applyRowUpdate row (mergeTask (scanTask row) p)) hfind2
    have hstab : mergeTask
        (scanTask (applyRowUpdate row (mergeTask (scanTask row) p))) p =
        mergeTask (scanTask row) p :=
      mergeTask_stable (scanTask row) p _ rfl rfl rfl rfl rfl
    rw [h2]
    refine congrArg Except.ok ?_
    rw [UpdateResult.mk.injEq]
    refine ⟨?_, ?_, hstab⟩
    · rw [hstab]
      exact map_update_idem tasks pathId (mergeTask (scanTask row) p)
    · rw [hstab]
      exact updateActivities_nil _ _ _ _ rfl rfl rfl

/-- C3 witness: a concrete update that moves, assigns and edits emits
three activities once; the identical second application changes nothing
and emits none. -/
theorem updateTask_idempotent_witness :
    updateTask [cex3Old] 3 cex3Payload = .ok cex3Result ∧
    updateTask cex3Result.tasks 3 cex3Payload =
      .ok ⟨cex3Result.tasks, [], cex3Result.response⟩ :=
  ⟨rfl, updateTask_idempotent [cex3Old] 3 cex3Payload cex3Result rfl⟩

end Moziboard
